import Mathlib

/-
  Verification development for the wezzie-api hospital/ambulance backend.

  Shallow embedding conventions:
  * The relational store is a record of lists (`DB`); SQLAlchemy queries
    (`filter(...).first()` / `.all()`) become `List.find?` / `List.filter`.
  * Each FastAPI handler becomes a pure function
    `DB -> params -> Except HttpError (result × DB)`; raising an
    `HTTPException` becomes `Except.error`, and since every handler either
    raises before mutating or rolls back on error, an `error` result leaves
    the store unchanged by construction.
  * The patient-side handlers wrap their whole body in
    `try ... except Exception as e: raise HTTPException(500, prefix+str(e))`,
    which also catches the handler's own `HTTPException`s (they subclass
    `Exception`); this re-wrapping is modelled by `wrap_exceptions`.
  * Dates, times and timestamps are `Nat` ordinals; timezone-awareness of
    Python datetimes is not modelled.
  * Python string-enums (`class AmbulanceStatus(str, enum.Enum)`) compare
    equal to their value strings; ORM filters such as
    `status.in_(["assigned", ...])` are therefore modelled as membership of
    the member's value string.
  * JWT encoding/decoding is abstracted: a request credential is either
    absent, malformed (signature/expiry rejected), or a decoded payload.
-/

namespace Wezzie

/-! Enums, from app/models/all_models.py. -/

inductive UserRole
  | patient | doctor | nurse | admin | receptionist | ambulance_driver
  deriving DecidableEq, Repr

inductive AppointmentStatus
  | scheduled | confirmed | in_progress | completed | cancelled | no_show
  deriving DecidableEq, Repr

inductive AmbulanceStatus
  | requested | assigned | en_route_pickup | arrived_pickup | transporting
  | en_route_hospital | arrived_hospital | completed | cancelled
  deriving DecidableEq, Repr

inductive Priority
  | low | medium | high | emergency | critical
  deriving DecidableEq, Repr

inductive AmbulancePriority
  | routine | urgent | emergency | critical | code_red
  deriving DecidableEq, Repr

inductive CaseSeverity
  | minor | moderate | serious | severe | critical
  deriving DecidableEq, Repr

/-- Value string of an `AmbulanceStatus` member (the `str` payload of the
Python string-enum, e.g. `AmbulanceStatus.ASSIGNED == "assigned"`). -/
def AmbulanceStatus.value : AmbulanceStatus → String
  | .requested => "requested"
  | .assigned => "assigned"
  | .en_route_pickup => "en_route_pickup"
  | .arrived_pickup => "arrived_pickup"
  | .transporting => "transporting"
  | .en_route_hospital => "en_route_hospital"
  | .arrived_hospital => "arrived_hospital"
  | .completed => "completed"
  | .cancelled => "cancelled"

/-- Member names of `AmbulanceStatus` (`AmbulanceStatus.__members__` keys). -/
def ambulance_status_member_names : List String :=
  ["REQUESTED", "ASSIGNED", "EN_ROUTE_PICKUP", "ARRIVED_PICKUP", "TRANSPORTING",
   "EN_ROUTE_HOSPITAL", "ARRIVED_HOSPITAL", "COMPLETED", "CANCELLED"]

/-- Lookup by member name, `AmbulanceStatus[s]`; `none` exactly when
`s not in AmbulanceStatus.__members__`. -/
def ambulance_status_of_member_name (s : String) : Option AmbulanceStatus :=
  if s == "REQUESTED" then some .requested
  else if s == "ASSIGNED" then some .assigned
  else if s == "EN_ROUTE_PICKUP" then some .en_route_pickup
  else if s == "ARRIVED_PICKUP" then some .arrived_pickup
  else if s == "TRANSPORTING" then some .transporting
  else if s == "EN_ROUTE_HOSPITAL" then some .en_route_hospital
  else if s == "ARRIVED_HOSPITAL" then some .arrived_hospital
  else if s == "COMPLETED" then some .completed
  else if s == "CANCELLED" then some .cancelled
  else none

/-! Rows, from app/models/all_models.py (columns not touched by any handler
modelled here are omitted). -/

structure User where
  id : Nat
  first_name : String
  last_name : String
  email : String
  phone : Option String
  password : Option String
  otp : Option String
  role : UserRole
  email_verified_at : Option Nat
  phone_verified_at : Option Nat
  is_active : Bool
  deriving DecidableEq, Repr

structure Appointment where
  id : Nat
  patient_id : Nat
  doctor_id : Option Nat
  service_id : Nat
  department_id : Nat
  appointment_date : Nat
  appointment_time : Nat
  estimated_duration : Nat
  status : AppointmentStatus
  priority : Priority
  symptoms : Option String
  special_requirements : Option String
  notes : Option String
  cancelled_at : Option Nat
  cancellation_reason : Option String
  created_by : Option Nat
  created_at : Nat
  updated_at : Nat
  deriving DecidableEq, Repr

structure Ambulance where
  id : Nat
  registration_number : String
  is_operational : Bool
  deriving DecidableEq, Repr

structure AmbulanceBooking where
  id : Nat
  patient_id : Nat
  driver_id : Option Nat
  ambulance_id : Option Nat
  case_severity : CaseSeverity
  priority : AmbulancePriority
  pickup_location : String
  destination : String
  requested_datetime : Nat
  status : AmbulanceStatus
  patient_condition : Option String
  special_equipment_needed : Option String
  medical_history : Option String
  contact_person_name : Option String
  contact_person_phone : Option String
  notes : Option String
  assigned_at : Option Nat
  en_route_pickup_at : Option Nat
  arrived_pickup_at : Option Nat
  transporting_at : Option Nat
  en_route_hospital_at : Option Nat
  arrived_hospital_at : Option Nat
  completed_at : Option Nat
  cancelled_at : Option Nat
  cancellation_reason : Option String
  created_at : Nat
  updated_at : Nat
  deriving DecidableEq, Repr

structure AmbulanceDispatchLog where
  id : Nat
  ambulance_booking_id : Nat
  dispatcher_id : Nat
  action : String
  previous_status : Option String
  new_status : Option String
  deriving DecidableEq, Repr

structure Service where
  id : Nat
  department_id : Option Nat
  is_active : Bool
  deriving DecidableEq, Repr

structure Department where
  id : Nat
  is_active : Bool
  deriving DecidableEq, Repr

structure DB where
  users : List User
  appointments : List Appointment
  ambulances : List Ambulance
  ambulance_bookings : List AmbulanceBooking
  dispatch_logs : List AmbulanceDispatchLog
  services : List Service
  departments : List Department
  deriving DecidableEq, Repr

/-- Commit of a mutated appointment row (replace by primary key). -/
def DB.set_appointment (db : DB) (a : Appointment) : DB :=
  { db with appointments := db.appointments.map (fun x => if x.id == a.id then a else x) }

/-- Commit of a mutated booking row (replace by primary key). -/
def DB.set_booking (db : DB) (b : AmbulanceBooking) : DB :=
  { db with ambulance_bookings :=
      db.ambulance_bookings.map (fun x => if x.id == b.id then b else x) }

/-- Commit of a mutated user row (replace by primary key). -/
def DB.set_user (db : DB) (u : User) : DB :=
  { db with users := db.users.map (fun x => if x.id == u.id then u else x) }

/-- Commit of a mutated ambulance row (replace by primary key). -/
def DB.set_ambulance (db : DB) (a : Ambulance) : DB :=
  { db with ambulances := db.ambulances.map (fun x => if x.id == a.id then a else x) }

/-! HTTP layer. -/

structure HttpError where
  code : Nat
  detail : String
  deriving DecidableEq, Repr

/-- Rendering of `str(HTTPException)` (Starlette formats it as
`"<status_code>: <detail>"`). -/
def http_exception_str (e : HttpError) : String :=
  toString e.code ++ ": " ++ e.detail

/-- The patient-router pattern `try: ... except Exception as e:
raise HTTPException(500, msg + str(e))`, which also swallows the body's own
`HTTPException`s since they subclass `Exception`. -/
def wrap_exceptions (msg : String) : Except HttpError α → Except HttpError α
  | .ok v => .ok v
  | .error e => .error ⟨500, msg ++ http_exception_str e⟩

/-- Check of `Except.ok`. -/
def isOkE : Except HttpError α → Bool
  | .ok _ => true
  | .error _ => false

instance exceptDecEq [DecidableEq ε] [DecidableEq α] : DecidableEq (Except ε α) :=
  fun x y =>
    match x, y with
    | .ok a, .ok b =>
      if h : a = b then .isTrue (by rw [h])
      else .isFalse (fun hh => h (by injection hh))
    | .error a, .error b =>
      if h : a = b then .isTrue (by rw [h])
      else .isFalse (fun hh => h (by injection hh))
    | .ok _, .error _ => .isFalse (fun hh => Except.noConfusion hh)
    | .error _, .ok _ => .isFalse (fun hh => Except.noConfusion hh)

/-! Input sanitisation, app/routes/patients/router.py `sanitize_input`:
strip, drop the characters `<` `>` `;`, and collapse whitespace runs. -/

def collapse_ws : List Char → List Char
  | [] => []
  | c :: rest =>
    if c.isWhitespace then
      match collapse_ws rest with
      | [] => ' ' :: []
      | d :: ds => if d == ' ' then d :: ds else ' ' :: d :: ds
    else c :: collapse_ws rest

def sanitize_input (s : String) : String :=
  String.mk (collapse_ws ((s.trim.data.filter (fun c => c != '<' && c != '>' && c != ';'))))

/-! Authentication, app/utils/auth.py and app/routes/auth/router.py. -/

def string_digits : List Char := ['0', '1', '2', '3', '4', '5', '6', '7', '8', '9']

/-- Model of `generate_otp` (app/utils/auth.py): `random.choice(string.digits)`
drawn `length` times; the random stream is abstracted as `choice`. -/
def generate_otp (choice : Nat → Nat) (length : Nat := 6) : String :=
  String.mk ((List.range length).map
    (fun i => string_digits.getD (choice i % string_digits.length) '0'))

/-- Decoded form of an `Authorization: Bearer` credential. `malformed` stands
for a token `jwt.decode` rejects (bad signature, expired); `payload` carries
the `sub` and `type` claims. -/
inductive BearerPayload
  | malformed
  | payload (sub : Option Nat) (typ : String)
  deriving DecidableEq, Repr

/-- A request's Authorization header: `none` when the header is absent. -/
abbrev Credential := Option BearerPayload

/-- Model of `get_current_user` (app/utils/auth.py) together with the
`HTTPBearer` dependency it declares: a missing header is rejected by the
scheme itself (403 "Not authenticated"); any token failure maps to the
401 `credentials_exception`; a deactivated account is rejected with 403. -/
def get_current_user (db : DB) (cred : Credential) : Except HttpError User :=
  match cred with
  | none => .error ⟨403, "Not authenticated"⟩
  | some .malformed => .error ⟨401, "Could not validate credentials"⟩
  | some (.payload sub typ) =>
    if typ != "access" then .error ⟨401, "Could not validate credentials"⟩
    else
      match sub with
      | none => .error ⟨401, "Could not validate credentials"⟩
      | some uid =>
        match db.users.find? (fun u => u.id == uid) with
        | none => .error ⟨401, "Could not validate credentials"⟩
        | some u =>
          if !u.is_active then .error ⟨403, "User account is deactivated"⟩
          else .ok u

/-- Model of `require_patient` (app/routes/patients/router.py). -/
def require_patient (current_user : User) : Except HttpError User :=
  if current_user.role != .patient then .error ⟨403, "Insufficient permissions"⟩
  else if !current_user.is_active then .error ⟨403, "User account is inactive"⟩
  else .ok current_user

/-- Python truthiness of the stored `user.otp` column (`not user.otp`):
falsy when NULL or the empty string. -/
def otp_falsy : Option String → Bool
  | none => true
  | some s => s.isEmpty

def matches_email_or_phone (ident : String) (u : User) : Bool :=
  u.email == ident || u.phone == some ident

structure OTPVerificationRequest where
  email_or_phone : String
  otp : String
  verification_type : String
  deriving DecidableEq, Repr

/-- Model of POST /auth/verify-otp (app/routes/auth/router.py `verify_otp`).
The JSON body of the 200 response is omitted; the result is the committed
store. -/
def auth_verify_otp (db : DB) (v : OTPVerificationRequest) (now : Nat) :
    Except HttpError DB :=
  match db.users.find? (matches_email_or_phone v.email_or_phone) with
  | none => .error ⟨404, "User not found"⟩
  | some user =>
    if otp_falsy user.otp || user.otp != some v.otp then
      .error ⟨400, "Invalid OTP"⟩
    else
      let user' :=
        if v.verification_type == "email" then
          { user with email_verified_at := some now, otp := none }
        else if v.verification_type == "phone" then
          { user with phone_verified_at := some now, otp := none }
        else
          { user with email_verified_at := some now, phone_verified_at := some now,
                      otp := none }
      .ok (db.set_user user')

/-- Model of POST /auth/resend-otp (app/routes/auth/router.py `resend_otp`);
`new_otp` stands for the `generate_otp()` call at the use site, and the
background send task is out of scope. -/
def auth_resend_otp (db : DB) (email_or_phone : String) (new_otp : String) :
    Except HttpError DB :=
  match db.users.find? (matches_email_or_phone email_or_phone) with
  | none => .error ⟨404, "User not found"⟩
  | some user => .ok (db.set_user { user with otp := some new_otp })

structure MessageResponse where
  message : String
  sent : Bool
  deriving DecidableEq, Repr

/-- Model of POST /auth/forgot-password (app/routes/auth/router.py
`forgot_password`): both branches answer HTTP 200, with the two literal
message strings of the source. -/
def auth_forgot_password (db : DB) (email_or_phone : String) (new_otp : String) :
    Except HttpError (MessageResponse × DB) :=
  match db.users.find? (matches_email_or_phone email_or_phone) with
  | none =>
    .ok ({ message := "If the account exists, password reset instructions have been sent",
           sent := true }, db)
  | some user =>
    .ok ({ message := "Password reset instructions sent successfully", sent := true },
         db.set_user { user with otp := some new_otp })

/-! Driver routes, app/routes/drivers/router.py. None of this router's
endpoints declares an authentication dependency, so the modelled functions
take no credential. -/

def get_driver_or_404 (db : DB) (driver_id : Nat) : Except HttpError User :=
  match db.users.find? (fun u => u.id == driver_id && u.role == .ambulance_driver) with
  | none => .error ⟨404, "Driver with id " ++ toString driver_id ++ " not found"⟩
  | some driver => .ok driver

/-- Model of GET /drivers/ (`list_drivers`): no authentication dependency. -/
def drivers_list_drivers (db : DB) : Except HttpError (List User) :=
  .ok (db.users.filter (fun u => u.role == .ambulance_driver))

/-- Model of PATCH /drivers/{driver_id}/bookings/{booking_id}/status
(`update_booking_status`); `payload_status` is `status_update.get("status")`.
The membership test `new_status not in AmbulanceStatus.__members__` followed
by `AmbulanceStatus[new_status]` is modelled by the name lookup. The handler
sets only the `status` column: no terminal-state guard, no timestamp stamping,
no dispatch-log row, and no credential parameter. -/
def drivers_update_booking_status (db : DB) (driver_id booking_id : Nat)
    (payload_status : Option String) : Except HttpError (AmbulanceBooking × DB) :=
  match get_driver_or_404 db driver_id with
  | .error e => .error e
  | .ok driver =>
    match db.ambulance_bookings.find?
        (fun b => b.id == booking_id && b.driver_id == some driver.id) with
    | none =>
      .error ⟨404, "Booking " ++ toString booking_id ++ " not found for driver "
                     ++ toString driver_id⟩
    | some booking =>
      match payload_status with
      | none => .error ⟨400, "Invalid status"⟩
      | some s =>
        match ambulance_status_of_member_name s with
        | none => .error ⟨400, "Invalid status"⟩
        | some st =>
          let booking' := { booking with status := st }
          .ok (booking', db.set_booking booking')

/-! Patient routes, app/routes/patients/router.py. Every handler body is
wrapped in the blanket `except Exception` re-raise (`wrap_exceptions`). -/

/-- `datetime.combine(appointment_date, appointment_time)` as a single
ordinal (timezone-awareness of the Python values is not modelled). -/
def combine_date_time (d t : Nat) : Nat := d * 1440 + t

structure AppointmentCreatePat where
  service_id : Nat
  department_id : Nat
  appointment_date : Nat
  appointment_time : Nat
  symptoms : Option String := none
  special_requirements : Option String := none
  notes : Option String := none
  priority : Priority := .medium
  deriving DecidableEq, Repr

/-- Model of POST /patients/appointments (`create_appointment`): the request
schema (patient_schemas.AppointmentCreate) has no doctor and no status field;
the stored row gets `doctor_id` NULL and the model-default status
`scheduled`, and no scheduling-conflict query is issued. -/
def patients_create_appointment (db : DB) (current_user : User)
    (d : AppointmentCreatePat) (new_id now : Nat) : Except HttpError (Appointment × DB) :=
  wrap_exceptions "Error creating appointment: " <|
    match db.services.find? (fun s => s.id == d.service_id && s.is_active) with
    | none => .error ⟨404, "Service not found or inactive"⟩
    | some _ =>
      match db.departments.find? (fun dep => dep.id == d.department_id && dep.is_active) with
      | none => .error ⟨404, "Department not found or inactive"⟩
      | some _ =>
        if combine_date_time d.appointment_date d.appointment_time < now then
          .error ⟨400, "Cannot schedule appointments in the past"⟩
        else
          let appointment : Appointment :=
            { id := new_id, patient_id := current_user.id, doctor_id := none,
              service_id := d.service_id, department_id := d.department_id,
              appointment_date := d.appointment_date,
              appointment_time := d.appointment_time,
              estimated_duration := 30, status := .scheduled, priority := d.priority,
              symptoms := d.symptoms.map sanitize_input,
              special_requirements := d.special_requirements.map sanitize_input,
              notes := d.notes.map sanitize_input,
              cancelled_at := none, cancellation_reason := none,
              created_by := some current_user.id, created_at := now, updated_at := now }
          .ok (appointment, { db with appointments := db.appointments ++ [appointment] })

structure AppointmentUpdatePat where
  appointment_date : Option Nat := none
  appointment_time : Option Nat := none
  symptoms : Option String := none
  special_requirements : Option String := none
  notes : Option String := none
  priority : Option Priority := none
  deriving DecidableEq, Repr

/-- The `setattr` loop of the patient-side appointment update (provided,
non-None fields only; strings sanitised). -/
def apply_appointment_update_pat (a : Appointment) (u : AppointmentUpdatePat) : Appointment :=
  { a with
    appointment_date := u.appointment_date.getD a.appointment_date
    appointment_time := u.appointment_time.getD a.appointment_time
    symptoms := match u.symptoms with
      | some s => some (sanitize_input s) | none => a.symptoms
    special_requirements := match u.special_requirements with
      | some s => some (sanitize_input s) | none => a.special_requirements
    notes := match u.notes with
      | some s => some (sanitize_input s) | none => a.notes
    priority := u.priority.getD a.priority }

/-- Model of PUT /patients/appointments/{appointment_id}
(`update_appointment`, patient side): rejects completed/cancelled
appointments, but the 400 it raises is swallowed by the blanket handler and
resurfaces as a 500. -/
def patients_update_appointment (db : DB) (current_user : User) (appointment_id : Nat)
    (u : AppointmentUpdatePat) (now : Nat) : Except HttpError (Appointment × DB) :=
  wrap_exceptions "Error updating appointment: " <|
    match db.appointments.find?
        (fun a => a.id == appointment_id && a.patient_id == current_user.id) with
    | none => .error ⟨404, "Appointment not found"⟩
    | some appointment =>
      if appointment.status == .completed || appointment.status == .cancelled then
        .error ⟨400, "Cannot modify completed or cancelled appointments"⟩
      else
        let appointment' := { apply_appointment_update_pat appointment u with updated_at := now }
        .ok (appointment', db.set_appointment appointment')

/-- Model of DELETE /patients/appointments/{appointment_id}
(`cancel_appointment`): only an already-cancelled appointment is rejected;
`completed` is not guarded. -/
def patients_cancel_appointment (db : DB) (current_user : User) (appointment_id : Nat)
    (cancellation_reason : String) (now : Nat) : Except HttpError DB :=
  wrap_exceptions "Error cancelling appointment: " <|
    match db.appointments.find?
        (fun a => a.id == appointment_id && a.patient_id == current_user.id) with
    | none => .error ⟨404, "Appointment not found"⟩
    | some appointment =>
      if appointment.status == .cancelled then
        .error ⟨400, "Appointment is already cancelled"⟩
      else
        let appointment' := { appointment with
          status := .cancelled,
          cancellation_reason := some (sanitize_input cancellation_reason),
          cancelled_at := some now }
        .ok (db.set_appointment appointment')

structure AmbulanceBookingUpdate where
  patient_condition : Option String := none
  special_equipment_needed : Option String := none
  medical_history : Option String := none
  contact_person_name : Option String := none
  contact_person_phone : Option String := none
  notes : Option String := none
  deriving DecidableEq, Repr

/-- The `setattr` loop of the patient-side booking update (the schema exposes
only these free-text fields; no status, driver or vehicle field). -/
def apply_ambulance_booking_update (b : AmbulanceBooking) (u : AmbulanceBookingUpdate) :
    AmbulanceBooking :=
  { b with
    patient_condition := match u.patient_condition with
      | some s => some (sanitize_input s) | none => b.patient_condition
    special_equipment_needed := match u.special_equipment_needed with
      | some s => some (sanitize_input s) | none => b.special_equipment_needed
    medical_history := match u.medical_history with
      | some s => some (sanitize_input s) | none => b.medical_history
    contact_person_name := match u.contact_person_name with
      | some s => some (sanitize_input s) | none => b.contact_person_name
    contact_person_phone := match u.contact_person_phone with
      | some s => some (sanitize_input s) | none => b.contact_person_phone
    notes := match u.notes with
      | some s => some (sanitize_input s) | none => b.notes }

/-- Model of PUT /patients/ambulance-bookings/{booking_id}
(`update_ambulance_booking`): rejects completed/cancelled bookings, with the
internal 400 resurfacing as a 500 through the blanket handler. -/
def patients_update_ambulance_booking (db : DB) (current_user : User) (booking_id : Nat)
    (u : AmbulanceBookingUpdate) (now : Nat) : Except HttpError (AmbulanceBooking × DB) :=
  wrap_exceptions "Error updating ambulance booking: " <|
    match db.ambulance_bookings.find?
        (fun b => b.id == booking_id && b.patient_id == current_user.id) with
    | none => .error ⟨404, "Ambulance booking not found"⟩
    | some booking =>
      if booking.status == .completed || booking.status == .cancelled then
        .error ⟨400, "Cannot modify completed or cancelled ambulance bookings"⟩
      else
        let booking' := { apply_ambulance_booking_update booking u with updated_at := now }
        .ok (booking', db.set_booking booking')

/-- Model of DELETE /patients/ambulance-bookings/{booking_id}
(`cancel_ambulance_booking`): only an already-cancelled booking is rejected;
`completed` is not guarded. No dispatch-log row is written. -/
def patients_cancel_ambulance_booking (db : DB) (current_user : User) (booking_id : Nat)
    (cancellation_reason : String) (now : Nat) : Except HttpError DB :=
  wrap_exceptions "Error cancelling ambulance booking: " <|
    match db.ambulance_bookings.find?
        (fun b => b.id == booking_id && b.patient_id == current_user.id) with
    | none => .error ⟨404, "Ambulance booking not found"⟩
    | some booking =>
      if booking.status == .cancelled then
        .error ⟨400, "Ambulance booking is already cancelled"⟩
      else
        let booking' := { booking with
          status := .cancelled,
          cancellation_reason := some (sanitize_input cancellation_reason),
          cancelled_at := some now }
        .ok (db.set_booking booking')

/-! Admin calendar routes, app/routes/calenda/router.py. These handlers keep
an `except HTTPException: raise` clause before the blanket `except`, so
their own HTTP errors pass through unwrapped. -/

structure AppointmentCreateCal where
  patient_id : Nat
  doctor_id : Option Nat := none
  service_id : Nat
  department_id : Nat
  appointment_date : Nat
  appointment_time : Nat
  estimated_duration : Nat := 30
  status : AppointmentStatus := .scheduled
  priority : Priority := .medium
  symptoms : Option String := none
  special_requirements : Option String := none
  notes : Option String := none
  deriving DecidableEq, Repr

/-- The scheduling-conflict existence query of the calendar create handler:
another appointment with the same doctor, date and time whose status is
scheduled or confirmed. -/
def conflict_on_create (db : DB) (doctor_id date time : Nat) : Bool :=
  db.appointments.any (fun a =>
    a.doctor_id == some doctor_id && a.appointment_date == date &&
    a.appointment_time == time &&
    (a.status == .scheduled || a.status == .confirmed))

/-- The conflict query of the calendar update handler: same as
`conflict_on_create` but excluding the appointment being updated. -/
def conflict_on_update (db : DB) (doctor_id date time exclude_id : Nat) : Bool :=
  db.appointments.any (fun a =>
    a.doctor_id == some doctor_id && a.appointment_date == date &&
    a.appointment_time == time &&
    (a.status == .scheduled || a.status == .confirmed) &&
    a.id != exclude_id)

/-- Doctor-existence and role check of the calendar create handler (runs only
when a doctor is named). -/
def calenda_check_doctor (db : DB) (doctor_id : Option Nat) : Except HttpError Unit :=
  match doctor_id with
  | none => .ok ()
  | some did =>
    match db.users.find? (fun u => u.id == did) with
    | none => .error ⟨404, "Doctor not found"⟩
    | some doctor =>
      if doctor.role != .doctor && doctor.role != .nurse then
        .error ⟨400, "Specified user is not a medical professional"⟩
      else .ok ()

/-- Model of POST / on the calendar router (`create_appointment`, admin
side): entity checks, then the conflict check (only when a doctor is named),
then persist. The request schema carries a status field defaulting to
`scheduled`. -/
def calenda_create_appointment (db : DB) (d : AppointmentCreateCal) (current_user : User)
    (new_id now : Nat) : Except HttpError (Appointment × DB) :=
  match db.users.find? (fun u => u.id == d.patient_id) with
  | none => .error ⟨404, "Patient not found"⟩
  | some _ =>
    match calenda_check_doctor db d.doctor_id with
    | .error e => .error e
    | .ok _ =>
      match db.departments.find? (fun dep => dep.id == d.department_id) with
      | none => .error ⟨404, "Department not found"⟩
      | some _ =>
        match db.services.find? (fun s => s.id == d.service_id) with
        | none => .error ⟨404, "Service not found"⟩
        | some _ =>
          let conflict :=
            match d.doctor_id with
            | some did => conflict_on_create db did d.appointment_date d.appointment_time
            | none => false
          if conflict then
            .error ⟨409, "Doctor already has an appointment at this time"⟩
          else
            let appointment : Appointment :=
              { id := new_id, patient_id := d.patient_id, doctor_id := d.doctor_id,
                service_id := d.service_id, department_id := d.department_id,
                appointment_date := d.appointment_date,
                appointment_time := d.appointment_time,
                estimated_duration := d.estimated_duration,
                status := d.status, priority := d.priority,
                symptoms := d.symptoms, special_requirements := d.special_requirements,
                notes := d.notes, cancelled_at := none, cancellation_reason := none,
                created_by := some current_user.id, created_at := now, updated_at := now }
            .ok (appointment, { db with appointments := db.appointments ++ [appointment] })

structure AppointmentUpdateCal where
  doctor_id : Option Nat := none
  service_id : Option Nat := none
  department_id : Option Nat := none
  appointment_date : Option Nat := none
  appointment_time : Option Nat := none
  estimated_duration : Option Nat := none
  status : Option AppointmentStatus := none
  priority : Option Priority := none
  symptoms : Option String := none
  special_requirements : Option String := none
  notes : Option String := none
  deriving DecidableEq, Repr

/-- The `setattr` loop of the calendar update handler (provided fields only;
no sanitisation on this path). -/
def apply_appointment_update_cal (a : Appointment) (u : AppointmentUpdateCal) : Appointment :=
  { a with
    doctor_id := match u.doctor_id with | some v => some v | none => a.doctor_id
    service_id := u.service_id.getD a.service_id
    department_id := u.department_id.getD a.department_id
    appointment_date := u.appointment_date.getD a.appointment_date
    appointment_time := u.appointment_time.getD a.appointment_time
    estimated_duration := u.estimated_duration.getD a.estimated_duration
    status := u.status.getD a.status
    priority := u.priority.getD a.priority
    symptoms := match u.symptoms with | some s => some s | none => a.symptoms
    special_requirements := match u.special_requirements with
      | some s => some s | none => a.special_requirements
    notes := match u.notes with | some s => some s | none => a.notes }

/-- Model of PUT /{appointment_id} on the calendar router
(`update_appointment`, admin side): conflict check only when a doctor is in
play and date or time is being changed; there is no terminal-status guard. -/
def calenda_update_appointment (db : DB) (appointment_id : Nat) (u : AppointmentUpdateCal)
    (now : Nat) : Except HttpError (Appointment × DB) :=
  match db.appointments.find? (fun a => a.id == appointment_id) with
  | none => .error ⟨404, "Appointment not found"⟩
  | some appointment =>
    let doctor_id := match u.doctor_id with | some v => some v | none => appointment.doctor_id
    let check_date := u.appointment_date.getD appointment.appointment_date
    let check_time := u.appointment_time.getD appointment.appointment_time
    let conflict :=
      match doctor_id with
      | some did =>
        if u.appointment_date.isSome || u.appointment_time.isSome then
          conflict_on_update db did check_date check_time appointment.id
        else false
      | none => false
    if conflict then
      .error ⟨409, "Doctor already has an appointment at this time"⟩
    else
      let appointment' := { apply_appointment_update_cal appointment u with updated_at := now }
      .ok (appointment', db.set_appointment appointment')

/-! Ambulance routes, app/routes/ambulances/router.py. -/

/-- The value strings of the `status.in_([...])` filters the ambulance router
uses to find a vehicle's active bookings. -/
def active_booking_status_values : List String :=
  ["assigned", "en_route_pickup", "arrived_pickup", "transporting", "en_route_hospital"]

/-- Model of PATCH /ambulances/{ambulance_id}/status
(`update_ambulance_status`): recompute `is_operational` from the frontend
status string, and when it is "In Repair" or "Unavailable" cancel every
active booking of this vehicle, stamping `cancelled_at`. The source assigns
the bare string "cancelled" to the status column, i.e. the `cancelled`
member of the string-enum. No dispatch-log row is written. -/
def ambulances_update_ambulance_status (db : DB) (ambulance_id : Nat)
    (payload_status : Option String) (now : Nat) : Except HttpError (Ambulance × DB) :=
  match db.ambulances.find? (fun a => a.id == ambulance_id) with
  | none => .error ⟨404, "Ambulance not found"⟩
  | some ambulance =>
    let status_value := payload_status.getD ""
    if status_value == "" then .error ⟨400, "Status field is required"⟩
    else
      let operational := ["Available", "In Transit", "Occupied"].contains status_value
      let ambulance' := { ambulance with is_operational := operational }
      let db1 := db.set_ambulance ambulance'
      let db2 :=
        if ["In Repair", "Unavailable"].contains status_value then
          { db1 with ambulance_bookings := db1.ambulance_bookings.map (fun b =>
              if b.ambulance_id == some ambulance.id &&
                  active_booking_status_values.contains b.status.value then
                { b with status := .cancelled, cancelled_at := some now }
              else b) }
        else db1
      .ok (ambulance', db2)

/-! Shared lemmas. -/

/-- Pointwise-equal functions map lists equally. -/
lemma list_map_ext (l : List α) (f g : α → β) (h : ∀ a, f a = g a) :
    l.map f = l.map g := by
  induction l with
  | nil => rfl
  | cons a t ih => simp [h, ih]

/-- The ambulance router's lowercase value filter selects exactly the
five "active" members of the status enum. -/
lemma active_value_iff (st : AmbulanceStatus) :
    active_booking_status_values.contains st.value = true ↔
      st ∈ [AmbulanceStatus.assigned, AmbulanceStatus.en_route_pickup,
            AmbulanceStatus.arrived_pickup, AmbulanceStatus.transporting,
            AmbulanceStatus.en_route_hospital] := by
  cases st <;> decide

/-- Updating the row `find?` located, at its own primary key, leaves it the
row that `find?` locates afterwards, provided the predicate still accepts
the updated row. -/
lemma find?_set_user (l : List User) (p : User → Bool) (u u' : User)
    (hf : l.find? p = some u) (hid : u'.id = u.id) (hp : p u' = true) :
    (l.map (fun x => if x.id == u'.id then u' else x)).find? p = some u' := by
  induction l with
  | nil => simp at hf
  | cons a t ih =>
    by_cases hpa : p a
    · rw [List.find?_cons_of_pos _ hpa] at hf
      injection hf with hf
      subst hf
      have : (a.id == u'.id) = true := by simp [hid]
      simp only [List.map_cons, this, if_pos rfl, ite_true]
      exact List.find?_cons_of_pos _ hp
    · rw [List.find?_cons_of_neg _ hpa] at hf
      by_cases had : a.id == u'.id
      · simp only [List.map_cons, had, ite_true]
        exact List.find?_cons_of_pos _ hp
      · simp only [List.map_cons, had, ite_false, Bool.false_eq_true]
        rw [List.find?_cons_of_neg _ hpa]
        exact ih hf

/-! Concrete sample rows for the closed theorems. -/

def sample_patient : User :=
  { id := 1, first_name := "Amara", last_name := "Banda",
    email := "amara@example.com", phone := some "0888000001",
    password := some "h1", otp := none, role := .patient,
    email_verified_at := some 1, phone_verified_at := some 1, is_active := true }

def sample_doctor : User :=
  { id := 2, first_name := "Chik", last_name := "Phiri",
    email := "chik@example.com", phone := some "0888000002",
    password := some "h2", otp := none, role := .doctor,
    email_verified_at := some 1, phone_verified_at := some 1, is_active := true }

def sample_driver : User :=
  { id := 3, first_name := "Dan", last_name := "Mwale",
    email := "dan@example.com", phone := some "0888000003",
    password := some "h3", otp := none, role := .ambulance_driver,
    email_verified_at := some 1, phone_verified_at := some 1, is_active := true }

def sample_admin : User :=
  { id := 4, first_name := "Ada", last_name := "Gondwe",
    email := "ada@example.com", phone := some "0888000004",
    password := some "h4", otp := none, role := .admin,
    email_verified_at := some 1, phone_verified_at := some 1, is_active := true }

def base_booking : AmbulanceBooking :=
  { id := 50, patient_id := 1, driver_id := some 3, ambulance_id := some 7,
    case_severity := .moderate, priority := .urgent,
    pickup_location := "Area 25", destination := "Central Hospital",
    requested_datetime := 1000, status := .requested,
    patient_condition := none, special_equipment_needed := none,
    medical_history := none, contact_person_name := none,
    contact_person_phone := none, notes := none,
    assigned_at := none, en_route_pickup_at := none, arrived_pickup_at := none,
    transporting_at := none, en_route_hospital_at := none,
    arrived_hospital_at := none, completed_at := none, cancelled_at := none,
    cancellation_reason := none, created_at := 900, updated_at := 900 }

def empty_db : DB :=
  { users := [], appointments := [], ambulances := [], ambulance_bookings := [],
    dispatch_logs := [], services := [], departments := [] }

/-- Behaviour of the driver status PATCH once the driver and the booking are
located: the outcome depends only on the member-name lookup of the payload,
not on the booking's current state. -/
lemma drivers_update_booking_status_eq
    (db : DB) (driver_id booking_id : Nat) (s : String) (driver : User)
    (booking : AmbulanceBooking)
    (hd : db.users.find? (fun u => u.id == driver_id && u.role == .ambulance_driver) =
      some driver)
    (hb : db.ambulance_bookings.find?
      (fun b => b.id == booking_id && b.driver_id == some driver.id) = some booking) :
    drivers_update_booking_status db driver_id booking_id (some s) =
      match ambulance_status_of_member_name s with
      | some st => .ok ({ booking with status := st },
          db.set_booking { booking with status := st })
      | none => .error ⟨400, "Invalid status"⟩ := by
  simp only [drivers_update_booking_status, get_driver_or_404, hd, hb]
  cases ambulance_status_of_member_name s <;> rfl

/-- The member-name lookup succeeds exactly on the nine uppercase names. -/
lemma member_name_lookup_iff (s : String) :
    (ambulance_status_of_member_name s).isSome = true ↔
      s ∈ ambulance_status_member_names := by
  simp only [ambulance_status_of_member_name, ambulance_status_member_names,
    List.mem_cons, List.not_mem_nil, or_false]
  split_ifs with h1 h2 h3 h4 h5 h6 h7 h8 h9 <;>
    simp_all [beq_iff_eq, Option.isSome]

/-- C10: the driver booking-status PATCH accepts exactly the enum member
names of AmbulanceStatus (the uppercase strings), rejecting every other
string — including the lowercase wire values such as "completed" — with
HTTP 400 "Invalid status"; when accepted it sets the booking's status to the
corresponding member, with no hypothesis on (hence no check of) the
booking's current status. -/
theorem driver_status_patch_member_names
    (db : DB) (driver_id booking_id : Nat) (s : String) (driver : User)
    (booking : AmbulanceBooking)
    (hd : db.users.find? (fun u => u.id == driver_id && u.role == .ambulance_driver) =
      some driver)
    (hb : db.ambulance_bookings.find?
      (fun b => b.id == booking_id && b.driver_id == some driver.id) = some booking) :
    (∀ st, ambulance_status_of_member_name s = some st →
      drivers_update_booking_status db driver_id booking_id (some s) =
        .ok ({ booking with status := st }, db.set_booking { booking with status := st })) ∧
    (ambulance_status_of_member_name s = none →
      drivers_update_booking_status db driver_id booking_id (some s) =
        .error ⟨400, "Invalid status"⟩) ∧
    ((ambulance_status_of_member_name s).isSome = true ↔
      s ∈ ambulance_status_member_names) ∧
    ambulance_status_of_member_name "completed" = none := by
  refine ⟨?_, ?_, member_name_lookup_iff s, by decide⟩
  · intro st hst
    rw [drivers_update_booking_status_eq db driver_id booking_id s driver booking hd hb, hst]
  · intro h
    rw [drivers_update_booking_status_eq db driver_id booking_id s driver booking hd hb, h]

def c10_db : DB :=
  { empty_db with users := [sample_driver], ambulance_bookings := [base_booking] }

/-- C10 witness: on a concrete store, the lowercase wire value "completed"
is rejected with 400 "Invalid status". -/
theorem driver_status_patch_member_names_witness :
    drivers_update_booking_status c10_db 3 50 (some "completed") =
      .error ⟨400, "Invalid status"⟩ :=
  (driver_status_patch_member_names c10_db 3 50 "completed" sample_driver base_booking
    (by decide) (by decide)).2.1 (by decide)

/-- Pointwise agreement between the router's string-valued active-booking
filter and the enum-set phrasing of the cascade. -/
lemma cascade_cell_eq (aid now : Nat) (b : AmbulanceBooking) :
    (if b.ambulance_id == some aid &&
        active_booking_status_values.contains b.status.value then
      { b with status := .cancelled, cancelled_at := some now }
    else b) =
    (if b.ambulance_id = some aid ∧
        b.status ∈ [AmbulanceStatus.assigned, AmbulanceStatus.en_route_pickup,
          AmbulanceStatus.arrived_pickup, AmbulanceStatus.transporting,
          AmbulanceStatus.en_route_hospital] then
      { b with status := .cancelled, cancelled_at := some now }
    else b) := by
  have hcond : (b.ambulance_id == some aid &&
      active_booking_status_values.contains b.status.value) = true ↔
      (b.ambulance_id = some aid ∧
        b.status ∈ [AmbulanceStatus.assigned, AmbulanceStatus.en_route_pickup,
          AmbulanceStatus.arrived_pickup, AmbulanceStatus.transporting,
          AmbulanceStatus.en_route_hospital]) := by
    rw [Bool.and_eq_true, beq_iff_eq]
    exact and_congr_right (fun _ => active_value_iff b.status)
  by_cases h : b.ambulance_id = some aid ∧
      b.status ∈ [AmbulanceStatus.assigned, AmbulanceStatus.en_route_pickup,
        AmbulanceStatus.arrived_pickup, AmbulanceStatus.transporting,
        AmbulanceStatus.en_route_hospital]
  · rw [if_pos (hcond.mpr h), if_pos h]
  · rw [if_neg (fun hc => h (hcond.mp hc)), if_neg h]

/-- Reduction of the ambulance status PATCH for a non-operational frontend
status string, with the query conditions supplied as hypotheses. -/
lemma ambulances_update_ambulance_status_eq
    (db : DB) (ambulance_id now : Nat) (sv : String) (ambulance : Ambulance)
    (ha : db.ambulances.find? (fun a => a.id == ambulance_id) = some ambulance)
    (hne : (sv == "") = false)
    (hop : ["Available", "In Transit", "Occupied"].contains sv = false)
    (hcas : ["In Repair", "Unavailable"].contains sv = true) :
    ambulances_update_ambulance_status db ambulance_id (some sv) now =
      .ok ({ ambulance with is_operational := false },
        { db.set_ambulance { ambulance with is_operational := false } with
          ambulance_bookings := db.ambulance_bookings.map (fun b =>
            if b.ambulance_id = some ambulance.id ∧
                b.status ∈ [AmbulanceStatus.assigned, AmbulanceStatus.en_route_pickup,
                  AmbulanceStatus.arrived_pickup, AmbulanceStatus.transporting,
                  AmbulanceStatus.en_route_hospital] then
              { b with status := .cancelled, cancelled_at := some now }
            else b) }) := by
  have hmap := list_map_ext db.ambulance_bookings _ _ (cascade_cell_eq ambulance.id now)
  simp only [ambulances_update_ambulance_status, ha, Option.getD_some, hne, hop, hcas,
    Bool.false_eq_true, if_false, if_true, DB.set_ambulance, hmap]

/-- C4: a PATCH of an ambulance's status to "In Repair" or "Unavailable"
sets `is_operational` to false and cancels (stamping `cancelled_at`) exactly
those of the ambulance's bookings whose status lies in the active set
{assigned, en_route_pickup, arrived_pickup, transporting, en_route_hospital},
leaving every other booking — other statuses and other vehicles — unchanged. -/
theorem vehicle_unavailability_cascade
    (db : DB) (ambulance_id now : Nat) (sv : String) (ambulance : Ambulance)
    (hs : sv = "In Repair" ∨ sv = "Unavailable")
    (ha : db.ambulances.find? (fun a => a.id == ambulance_id) = some ambulance) :
    ambulances_update_ambulance_status db ambulance_id (some sv) now =
      .ok ({ ambulance with is_operational := false },
        { db.set_ambulance { ambulance with is_operational := false } with
          ambulance_bookings := db.ambulance_bookings.map (fun b =>
            if b.ambulance_id = some ambulance.id ∧
                b.status ∈ [AmbulanceStatus.assigned, AmbulanceStatus.en_route_pickup,
                  AmbulanceStatus.arrived_pickup, AmbulanceStatus.transporting,
                  AmbulanceStatus.en_route_hospital] then
              { b with status := .cancelled, cancelled_at := some now }
            else b) }) := by
  rcases hs with h | h <;> subst h <;>
    exact ambulances_update_ambulance_status_eq db ambulance_id now _ ambulance ha
      (by decide) (by decide) (by decide)

def c4_amb : Ambulance := { id := 7, registration_number := "MW 101", is_operational := true }

def c4_amb2 : Ambulance := { id := 8, registration_number := "MW 102", is_operational := true }

def c4_db : DB :=
  { empty_db with
    ambulances := [c4_amb, c4_amb2],
    ambulance_bookings :=
      [{ base_booking with id := 51, status := .assigned },
       { base_booking with id := 52, status := .completed },
       { base_booking with id := 53, ambulance_id := some 8, status := .transporting }] }

/-- C4 witness: on a concrete store, marking ambulance 7 "Unavailable"
cancels its assigned booking (stamping `cancelled_at`), and leaves its
completed booking and the other vehicle's active booking untouched. -/
theorem vehicle_unavailability_cascade_witness :
    (match ambulances_update_ambulance_status c4_db 7 (some "Unavailable") 2000 with
     | .ok (a, db') => !a.is_operational &&
         (db'.ambulance_bookings.map (fun b => (b.status, b.cancelled_at)) ==
           [(.cancelled, some 2000), (.completed, none), (.transporting, none)])
     | .error _ => false) = true := by
  have h := vehicle_unavailability_cascade c4_db 7 2000 "Unavailable" c4_amb
    (Or.inr rfl) (by decide)
  rw [h]
  decide

/-! C3 and C6 fixtures: a store holding one driver, one vehicle, one
booking in progress, and one pre-existing dispatch-log row. -/

def pre_log : AmbulanceDispatchLog :=
  { id := 90, ambulance_booking_id := 49, dispatcher_id := 4, action := "assigned",
    previous_status := some "requested", new_status := some "assigned" }

def c3_db : DB :=
  { empty_db with
    users := [sample_patient, sample_driver],
    ambulances := [c4_amb],
    ambulance_bookings := [{ base_booking with status := .assigned }],
    dispatch_logs := [pre_log] }

/-- C3: none of the status-writing operations appends an
AmbulanceDispatchLog row. On a concrete store, a driver status PATCH, the
vehicle-unavailability cascade cancellation, and a patient-side booking
cancellation each change a booking's status while leaving the dispatch-log
table exactly as it was. -/
theorem dispatch_log_never_written :
    (match drivers_update_booking_status c3_db 3 50 (some "EN_ROUTE_PICKUP") with
     | .ok (b, db') => b.status == .en_route_pickup && db'.dispatch_logs == [pre_log]
     | .error _ => false) = true ∧
    (match ambulances_update_ambulance_status c3_db 7 (some "Unavailable") 2000 with
     | .ok (_, db') => (db'.ambulance_bookings.map (fun b => b.status) == [.cancelled]) &&
         db'.dispatch_logs == [pre_log]
     | .error _ => false) = true ∧
    (match patients_cancel_ambulance_booking c3_db sample_patient 50 "no longer needed" 2000 with
     | .ok db' => (db'.ambulance_bookings.map (fun b => b.status) == [.cancelled]) &&
         db'.dispatch_logs == [pre_log]
     | .error _ => false) = true := by
  decide

def c6_db : DB :=
  { empty_db with users := [sample_driver], ambulance_bookings := [base_booking] }

/-- C6: the only status-transition operation, the driver status PATCH,
stamps no timestamp: transitions into `assigned` and into in-flight states
leave `assigned_at` and every per-status `..._at` column NULL. -/
theorem status_transition_timestamps_not_stamped :
    (match drivers_update_booking_status c6_db 3 50 (some "ASSIGNED") with
     | .ok (b, _) => b.status == .assigned && b.assigned_at == none
     | .error _ => false) = true ∧
    (match drivers_update_booking_status c6_db 3 50 (some "TRANSPORTING") with
     | .ok (b, _) => b.status == .transporting && b.transporting_at == none
     | .error _ => false) = true ∧
    (match drivers_update_booking_status c6_db 3 50 (some "EN_ROUTE_PICKUP") with
     | .ok (b, _) => b.status == .en_route_pickup && b.en_route_pickup_at == none
     | .error _ => false) = true := by
  decide

/-- `wrap_exceptions` only re-labels errors: the success results coincide. -/
lemma wrap_exceptions_ok (msg : String) (r : Except HttpError α) (v : α) :
    wrap_exceptions msg r = .ok v ↔ r = .ok v := by
  cases r <;> simp [wrap_exceptions]

def c2_completed_booking : AmbulanceBooking := { base_booking with status := .completed }

def c2_db : DB :=
  { empty_db with
    users := [sample_patient, sample_driver],
    ambulance_bookings := [c2_completed_booking] }

/-- C2 counterexample: the driver-side status PATCH on a booking whose
status is `completed` does not fail — it resets the status to `requested`
and commits the change, so a terminal booking is not immutable. -/
theorem booking_terminal_immutability_counterexample :
    (match drivers_update_booking_status c2_db 3 50 (some "REQUESTED") with
     | .ok (b, db') => b.status == .requested &&
         (db'.ambulance_bookings.map (fun x => x.status) == [.requested])
     | .error _ => false) = true := by
  decide

/-- C2 amended: only the patient-side booking update refuses terminal
bookings, and its internal 400 surfaces as a 500 through the router's
blanket exception handler; the patient-side cancel guards only
already-cancelled bookings, so a completed booking can still be cancelled;
and the driver-side PATCH applies any valid member name with no terminal
check at all, leaving nothing immutable through that route. -/
theorem booking_terminal_immutability_amended
    (db : DB) (current_user : User) (booking_id now : Nat)
    (u : AmbulanceBookingUpdate) (reason : String) (booking : AmbulanceBooking)
    (hb : db.ambulance_bookings.find?
      (fun b => b.id == booking_id && b.patient_id == current_user.id) = some booking) :
    (booking.status = .completed ∨ booking.status = .cancelled →
      patients_update_ambulance_booking db current_user booking_id u now =
        .error ⟨500, "Error updating ambulance booking: 400: Cannot modify completed or cancelled ambulance bookings"⟩) ∧
    (booking.status = .cancelled →
      patients_cancel_ambulance_booking db current_user booking_id reason now =
        .error ⟨500, "Error cancelling ambulance booking: 400: Ambulance booking is already cancelled"⟩) ∧
    (booking.status = .completed →
      patients_cancel_ambulance_booking db current_user booking_id reason now =
        .ok (db.set_booking
          { booking with
            status := .cancelled,
            cancellation_reason := some (sanitize_input reason),
            cancelled_at := some now })) ∧
    (∀ (db2 : DB) (driver_id bid : Nat) (s : String) (st : AmbulanceStatus)
        (driver : User) (bk : AmbulanceBooking),
      db2.users.find? (fun x => x.id == driver_id && x.role == .ambulance_driver) =
          some driver →
      db2.ambulance_bookings.find? (fun b => b.id == bid && b.driver_id == some driver.id) =
          some bk →
      ambulance_status_of_member_name s = some st →
      drivers_update_booking_status db2 driver_id bid (some s) =
        .ok ({ bk with status := st }, db2.set_booking { bk with status := st })) := by
  refine ⟨?_, ?_, ?_, ?_⟩
  · intro h
    have hterm : (booking.status == AmbulanceStatus.completed ||
        booking.status == AmbulanceStatus.cancelled) = true := by
      rcases h with h | h <;> simp [h]
    simp only [patients_update_ambulance_booking, hb, hterm, wrap_exceptions,
      http_exception_str, if_true]
    exact congrArg Except.error (by decide)
  · intro h
    have hc : (booking.status == AmbulanceStatus.cancelled) = true := by simp [h]
    simp only [patients_cancel_ambulance_booking, hb, hc, wrap_exceptions,
      http_exception_str, if_true]
    exact congrArg Except.error (by decide)
  · intro h
    have hc : (booking.status == AmbulanceStatus.cancelled) = false := by simp [h]
    simp [patients_cancel_ambulance_booking, hb, hc, wrap_exceptions]
  · intro db2 driver_id bid s st driver bk hd2 hb2 hst
    rw [drivers_update_booking_status_eq db2 driver_id bid s driver bk hd2 hb2, hst]

/-- C2 witness: on a concrete store, the patient-side cancel of a
`completed` booking goes through, committing the cancellation. -/
theorem booking_terminal_immutability_amended_witness :
    patients_cancel_ambulance_booking c2_db sample_patient 50 "changed plans" 5000 =
      .ok (c2_db.set_booking
        { c2_completed_booking with
          status := .cancelled,
          cancellation_reason := some (sanitize_input "changed plans"),
          cancelled_at := some 5000 }) := by
  have h := booking_terminal_immutability_amended c2_db sample_patient 50 5000 {}
    "changed plans" c2_completed_booking (by decide)
  exact h.2.2.1 rfl

def c5_appt_completed : Appointment :=
  { id := 70, patient_id := 1, doctor_id := some 2, service_id := 11,
    department_id := 21, appointment_date := 10, appointment_time := 540,
    estimated_duration := 30, status := .completed, priority := .medium,
    symptoms := none, special_requirements := none, notes := none,
    cancelled_at := none, cancellation_reason := none, created_by := some 4,
    created_at := 1, updated_at := 1 }

def c5_db : DB :=
  { empty_db with
    users := [sample_patient, sample_doctor, sample_admin],
    appointments := [c5_appt_completed] }

/-- C5 counterexample: the admin calendar PUT applies an update to a
`completed` appointment — no rejection, and the stored record changes. -/
theorem appointment_terminal_immutability_counterexample :
    (match calenda_update_appointment c5_db 70 { notes := some "extra note" } 99 with
     | .ok (a, db') => a.status == .completed && a.notes == some "extra note" &&
         (db'.appointments.map (fun x => x.notes) == [some "extra note"])
     | .error _ => false) = true := by
  decide

/-- C5 amended: only the patient-side appointment PUT refuses terminal
appointments, and its internal 400 surfaces as a 500 through the router's
blanket exception handler; the patient-side DELETE guards only
already-cancelled appointments, so a completed appointment can still be
cancelled; and the admin calendar PUT has no terminal-status check — when no
date or time change triggers the conflict query it applies the update to an
appointment of any status. -/
theorem appointment_terminal_immutability_amended
    (db : DB) (current_user : User) (appointment_id now : Nat)
    (u : AppointmentUpdatePat) (reason : String) (appointment : Appointment)
    (ha : db.appointments.find?
      (fun a => a.id == appointment_id && a.patient_id == current_user.id) =
        some appointment) :
    (appointment.status = .completed ∨ appointment.status = .cancelled →
      patients_update_appointment db current_user appointment_id u now =
        .error ⟨500, "Error updating appointment: 400: Cannot modify completed or cancelled appointments"⟩) ∧
    (appointment.status = .cancelled →
      patients_cancel_appointment db current_user appointment_id reason now =
        .error ⟨500, "Error cancelling appointment: 400: Appointment is already cancelled"⟩) ∧
    (appointment.status = .completed →
      patients_cancel_appointment db current_user appointment_id reason now =
        .ok (db.set_appointment
          { appointment with
            status := .cancelled,
            cancellation_reason := some (sanitize_input reason),
            cancelled_at := some now })) ∧
    (∀ (db2 : DB) (aid now2 : Nat) (v : AppointmentUpdateCal) (a : Appointment),
      db2.appointments.find? (fun x => x.id == aid) = some a →
      v.appointment_date = none → v.appointment_time = none →
      calenda_update_appointment db2 aid v now2 =
        .ok ({ apply_appointment_update_cal a v with updated_at := now2 },
          db2.set_appointment
            { apply_appointment_update_cal a v with updated_at := now2 })) := by
  refine ⟨?_, ?_, ?_, ?_⟩
  · intro h
    have hterm : (appointment.status == AppointmentStatus.completed ||
        appointment.status == AppointmentStatus.cancelled) = true := by
      rcases h with h | h <;> simp [h]
    simp only [patients_update_appointment, ha, hterm, wrap_exceptions,
      http_exception_str, if_true]
    exact congrArg Except.error (by decide)
  · intro h
    have hc : (appointment.status == AppointmentStatus.cancelled) = true := by simp [h]
    simp only [patients_cancel_appointment, ha, hc, wrap_exceptions,
      http_exception_str, if_true]
    exact congrArg Except.error (by decide)
  · intro h
    have hc : (appointment.status == AppointmentStatus.cancelled) = false := by simp [h]
    simp [patients_cancel_appointment, ha, hc, wrap_exceptions]
  · intro db2 aid now2 v a hfind hdate htime
    cases hvd : v.doctor_id <;> cases had : a.doctor_id <;>
      simp [calenda_update_appointment, hfind, hvd, had, hdate, htime]

/-- C5 witness: on a concrete store, the patient-side DELETE cancels a
`completed` appointment, committing the change. -/
theorem appointment_terminal_immutability_amended_witness :
    patients_cancel_appointment c5_db sample_patient 70 "done with it" 99 =
      .ok (c5_db.set_appointment
        { c5_appt_completed with
          status := .cancelled,
          cancellation_reason := some (sanitize_input "done with it"),
          cancelled_at := some 99 }) := by
  have h := appointment_terminal_immutability_amended c5_db sample_patient 70 99 {}
    "done with it" c5_appt_completed (by decide)
  exact h.2.2.1 rfl

def c1_service : Service := { id := 11, department_id := some 21, is_active := true }

def c1_department : Department := { id := 21, is_active := true }

def c1_db0 : DB :=
  { empty_db with
    users := [sample_patient, sample_doctor, sample_admin],
    services := [c1_service], departments := [c1_department] }

def c1_req1 : AppointmentCreateCal :=
  { patient_id := 1, doctor_id := some 2, service_id := 11, department_id := 21,
    appointment_date := 10, appointment_time := 540, status := .in_progress }

def c1_req2 : AppointmentCreateCal := { c1_req1 with status := .scheduled }

def db_after_create (r : Except HttpError (Appointment × DB)) (fallback : DB) : DB :=
  match r with
  | .ok (_, db) => db
  | .error _ => fallback

def c1_db1 : DB :=
  db_after_create (calenda_create_appointment c1_db0 c1_req1 sample_admin 100 50) c1_db0

/-- C1 counterexample: two calendar creations for the same doctor, date and
time both succeed when the first request carries the (non-cancelled) status
`in_progress`, because the conflict query only looks for `scheduled` or
`confirmed` rows — the store ends up holding two non-cancelled appointments
on the same slot instead of one success and one 409. -/
theorem appointment_conflict_check_counterexample :
    isOkE (calenda_create_appointment c1_db0 c1_req1 sample_admin 100 50) = true ∧
    (match calenda_create_appointment c1_db1 c1_req2 sample_admin 101 60 with
     | .ok (_, db2) => (db2.appointments.filter (fun a =>
         a.doctor_id == some 2 && a.appointment_date == 10 &&
         a.appointment_time == 540 && !(a.status == .cancelled))).length == 2
     | .error _ => false) = true := by
  decide

/-- C1 amended: on the calendar endpoint, a doctor-naming creation is
rejected with 409 exactly when another appointment on the same
(doctor, date, time) has status `scheduled` or `confirmed`, and is persisted
otherwise (with whatever status the request carries); the patient-side
endpoint's schema cannot name a doctor, so every appointment it persists has
no doctor and never participates in the conflict check. -/
theorem appointment_conflict_check_amended
    (db : DB) (d : AppointmentCreateCal) (current_user patient : User)
    (new_id now did : Nat)
    (hdoc : d.doctor_id = some did)
    (hpat : db.users.find? (fun u => u.id == d.patient_id) = some patient)
    (hchk : calenda_check_doctor db d.doctor_id = .ok ())
    (hdep : (db.departments.find? (fun dep => dep.id == d.department_id)).isSome = true)
    (hsrv : (db.services.find? (fun s => s.id == d.service_id)).isSome = true) :
    (conflict_on_create db did d.appointment_date d.appointment_time = true →
      calenda_create_appointment db d current_user new_id now =
        .error ⟨409, "Doctor already has an appointment at this time"⟩) ∧
    (conflict_on_create db did d.appointment_date d.appointment_time = false →
      ∃ a, calenda_create_appointment db d current_user new_id now =
          .ok (a, { db with appointments := db.appointments ++ [a] }) ∧
        a.doctor_id = some did ∧ a.appointment_date = d.appointment_date ∧
        a.appointment_time = d.appointment_time ∧ a.status = d.status) ∧
    (∀ (pdb : DB) (pu : User) (pd : AppointmentCreatePat) (pid pnow : Nat)
        (a : Appointment) (pdb2 : DB),
      patients_create_appointment pdb pu pd pid pnow = .ok (a, pdb2) →
      a.doctor_id = none) := by
  obtain ⟨dep, hdep'⟩ := Option.isSome_iff_exists.mp hdep
  obtain ⟨srv, hsrv'⟩ := Option.isSome_iff_exists.mp hsrv
  rw [hdoc] at hchk
  refine ⟨?_, ?_, ?_⟩
  · intro hconf
    simp [calenda_create_appointment, hpat, hchk, hdep', hsrv', hdoc, hconf]
  · intro hconf
    refine
      ⟨{ id := new_id,
         patient_id := d.patient_id,
         doctor_id := d.doctor_id,
         service_id := d.service_id,
         department_id := d.department_id,
         appointment_date := d.appointment_date,
         appointment_time := d.appointment_time,
         estimated_duration := d.estimated_duration,
         status := d.status,
         priority := d.priority,
         symptoms := d.symptoms,
         special_requirements := d.special_requirements,
         notes := d.notes,
         cancelled_at := none,
         cancellation_reason := none,
         created_by := some current_user.id,
         created_at := now,
         updated_at := now },
       ?_, hdoc, rfl, rfl, rfl⟩
    simp [calenda_create_appointment, hpat, hchk, hdep', hsrv', hdoc, hconf]
  · intro pdb pu pd pid pnow a pdb2 hok
    unfold patients_create_appointment at hok
    rw [wrap_exceptions_ok] at hok
    split at hok
    · exact absurd hok (by simp)
    · split at hok
      · exact absurd hok (by simp)
      · split at hok
        · exact absurd hok (by simp)
        · simp only [Except.ok.injEq, Prod.mk.injEq] at hok
          obtain ⟨h1, _⟩ := hok
          rw [← h1]

/-- C1 witness: on a concrete store with no prior appointment, a calendar
creation naming doctor 2 persists the row. -/
theorem appointment_conflict_check_amended_witness :
    ∃ a, calenda_create_appointment c1_db0 c1_req2 sample_admin 100 50 =
        .ok (a, { c1_db0 with appointments := c1_db0.appointments ++ [a] }) ∧
      a.doctor_id = some 2 ∧ a.appointment_date = c1_req2.appointment_date ∧
      a.appointment_time = c1_req2.appointment_time ∧ a.status = c1_req2.status := by
  have h := appointment_conflict_check_amended c1_db0 c1_req2 sample_admin sample_patient
    100 50 2 (by decide) (by decide) (by rfl) (by decide) (by decide)
  exact h.2.1 (by decide)

/-- Every position of the digit table, with the source's out-of-range
default, holds a digit character. -/
lemma string_digits_getD_isDigit (k : Nat) : (string_digits.getD k '0').isDigit = true := by
  by_cases h : k < string_digits.length
  · have h10 : k < 10 := by simpa [string_digits] using h
    interval_cases k <;> decide
  · push_neg at h
    rw [List.getD_eq_default _ _ h]
    decide

/-- C7: OTP issuance stores a fresh 6-digit numeric code on the user record,
overwriting (and so invalidating) the previous one; verification succeeds
only on exact match with the stored code, clears it on success, and a second
attempt with the same code fails with "Invalid OTP". -/
theorem otp_issue_verify_single_use
    (choice : Nat → Nat) (db : DB) (ident new_otp old_code : String) (u : User)
    (now : Nat)
    (hfind : db.users.find? (matches_email_or_phone ident) = some u)
    (hne : new_otp ≠ "") :
    ((generate_otp choice).length = 6 ∧
      ∀ c ∈ (generate_otp choice).data, c.isDigit) ∧
    (auth_resend_otp db ident new_otp =
      .ok (db.set_user { u with otp := some new_otp })) ∧
    (old_code ≠ new_otp →
      auth_verify_otp (db.set_user { u with otp := some new_otp })
        ⟨ident, old_code, "email"⟩ now = .error ⟨400, "Invalid OTP"⟩) ∧
    (auth_verify_otp (db.set_user { u with otp := some new_otp })
        ⟨ident, new_otp, "email"⟩ now =
      .ok ((db.set_user { u with otp := some new_otp }).set_user
            { u with email_verified_at := some now, otp := none }) ∧
      auth_verify_otp ((db.set_user { u with otp := some new_otp }).set_user
          { u with email_verified_at := some now, otp := none })
        ⟨ident, new_otp, "email"⟩ now = .error ⟨400, "Invalid OTP"⟩) := by
  have hp : matches_email_or_phone ident u = true := List.find?_some hfind
  have hempty : new_otp.isEmpty = false := by
    cases he : new_otp.isEmpty
    · rfl
    · exact absurd ((String.isEmpty_iff new_otp).mp he) hne
  have hfind1 : (db.set_user { u with otp := some new_otp }).users.find?
      (matches_email_or_phone ident) = some { u with otp := some new_otp } := by
    have h := find?_set_user db.users (matches_email_or_phone ident) u
      { u with otp := some new_otp } hfind rfl hp
    simpa [DB.set_user] using h
  have hfind2 : ((db.set_user { u with otp := some new_otp }).set_user
      { u with email_verified_at := some now, otp := none }).users.find?
      (matches_email_or_phone ident) =
        some { u with email_verified_at := some now, otp := none } := by
    have h := find?_set_user (db.set_user { u with otp := some new_otp }).users
      (matches_email_or_phone ident) { u with otp := some new_otp }
      { u with email_verified_at := some now, otp := none } hfind1 rfl hp
    simpa [DB.set_user] using h
  refine ⟨⟨?_, ?_⟩, ?_, ?_, ?_, ?_⟩
  · simp [generate_otp, String.length]
  · intro c hc
    have hmem : ∃ i, i ∈ List.range 6 ∧
        string_digits.getD (choice i % string_digits.length) '0' = c := by
      simpa [generate_otp] using hc
    obtain ⟨i, -, hi⟩ := hmem
    rw [← hi]
    exact string_digits_getD_isDigit _
  · simp [auth_resend_otp, hfind]
  · intro hneq
    have hbe : (new_otp == old_code) = false :=
      beq_eq_false_iff_ne.mpr (fun hh => hneq hh.symm)
    have hbne : ((some new_otp : Option String) != some old_code) = !(new_otp == old_code) :=
      rfl
    simp [auth_verify_otp, hfind1, otp_falsy, hempty, hbne, hbe]
  · have hsame : ((some new_otp : Option String) != some new_otp) = false := by
      simp [bne]
    simp [auth_verify_otp, hfind1, otp_falsy, hempty, hsame]
  · simp [auth_verify_otp, hfind2, otp_falsy]

def c7_user : User := { sample_patient with otp := some "999999" }

def c7_db : DB := { empty_db with users := [c7_user] }

/-- C7 witness: issuing a fresh OTP for a concrete user overwrites the
stored code. -/
theorem otp_issue_verify_single_use_witness :
    auth_resend_otp c7_db "amara@example.com" "123456" =
      .ok (c7_db.set_user { c7_user with otp := some "123456" }) := by
  have h := otp_issue_verify_single_use (fun _ => 0) c7_db "amara@example.com"
    "123456" "999999" c7_user 77 (by decide) (by decide)
  exact h.2.1

def c8_db : DB :=
  { empty_db with users := [sample_driver], ambulance_bookings := [base_booking] }

/-- C8 counterexample: the driver endpoints carry no authentication
dependency at all — on a concrete store, listing drivers and PATCHing a
booking's status are served without any credential, instead of being
rejected with 401. -/
theorem bearer_auth_coverage_counterexample :
    drivers_list_drivers c8_db = .ok [sample_driver] ∧
    (match drivers_update_booking_status c8_db 3 50 (some "ASSIGNED") with
     | .ok (b, _) => b.status == .assigned
     | .error _ => false) = true := by
  decide

/-- C8 amended: routes that declare the `get_current_user` dependency do
reject requests without a valid bearer token (absent header 403 via the
HTTPBearer scheme, bad token 401, and success implies a stored active user);
but the driver router declares no authentication dependency, so its
endpoints are functions of the store alone — listing drivers always
succeeds and the booking-status PATCH can only fail with 404 or 400, never
with an authentication error. -/
theorem bearer_auth_coverage_amended
    (db : DB) (cred : Credential) (driver_id booking_id : Nat) (s : Option String) :
    (get_current_user db none = .error ⟨403, "Not authenticated"⟩) ∧
    (get_current_user db (some .malformed) =
      .error ⟨401, "Could not validate credentials"⟩) ∧
    (∀ u, get_current_user db cred = .ok u →
      cred ≠ none ∧ u ∈ db.users ∧ u.is_active = true) ∧
    (drivers_list_drivers db =
      .ok (db.users.filter (fun u => u.role == .ambulance_driver))) ∧
    (∀ e, drivers_update_booking_status db driver_id booking_id s = .error e →
      e.code = 404 ∨ e.code = 400) := by
  refine ⟨rfl, rfl, ?_, rfl, ?_⟩
  · intro u h
    match cred with
    | none => simp [get_current_user] at h
    | some .malformed => simp [get_current_user] at h
    | some (.payload sub typ) =>
      refine ⟨by simp, ?_⟩
      by_cases htyp : (typ != "access") = true
      · simp [get_current_user, htyp] at h
      · rcases sub with _ | uid
        · simp [get_current_user, htyp] at h
        · rcases hfd : db.users.find? (fun x => x.id == uid) with _ | u0
          · simp [get_current_user, htyp, hfd] at h
          · by_cases hact : (!u0.is_active) = true
            · simp [get_current_user, htyp, hfd, hact] at h
            · simp only [get_current_user, htyp, hfd, hact, if_neg, if_false,
                Bool.false_eq_true] at h
              injection h with h
              subst h
              refine ⟨List.mem_of_find?_eq_some hfd, ?_⟩
              simpa using hact
  · intro e h
    rcases hfd : db.users.find?
        (fun x => x.id == driver_id && x.role == .ambulance_driver) with _ | driver
    · simp only [drivers_update_booking_status, get_driver_or_404, hfd] at h
      injection h with h
      left
      rw [← h]
    · simp only [drivers_update_booking_status, get_driver_or_404, hfd] at h
      rcases hfb : db.ambulance_bookings.find?
          (fun b => b.id == booking_id && b.driver_id == some driver.id) with _ | booking
      · simp only [hfb] at h
        injection h with h
        left
        rw [← h]
      · simp only [hfb] at h
        match s, h with
        | none, h =>
          injection h with h
          right
          rw [← h]
        | some sv, h =>
          rcases hname : ambulance_status_of_member_name sv with _ | st
          · simp only [hname] at h
            injection h with h
            right
            rw [← h]
          · simp only [hname] at h
            exact absurd h (by simp)

/-- C8 witness: on a concrete store, a credential-less request to an
authenticated route is rejected with 403, while the driver listing is
served with no credential at all. -/
theorem bearer_auth_coverage_amended_witness :
    get_current_user c8_db none = .error ⟨403, "Not authenticated"⟩ ∧
    drivers_list_drivers c8_db = .ok [sample_driver] := by
  have h := bearer_auth_coverage_amended c8_db none 3 50 (some "ASSIGNED")
  refine ⟨h.1, ?_⟩
  rw [h.2.2.2.1]
  decide

def c9_db : DB := { empty_db with users := [sample_patient] }

/-- C9 counterexample: on a concrete store, the forgot-password responses
for an existing identifier and for a non-existent one are both HTTP 200 but
carry different message bodies, so the observable responses are not
identical. -/
theorem forgot_password_response_counterexample :
    auth_forgot_password c9_db "amara@example.com" "654321" =
      .ok ({ message := "Password reset instructions sent successfully", sent := true },
           c9_db.set_user { sample_patient with otp := some "654321" }) ∧
    auth_forgot_password c9_db "ghost@example.com" "654321" =
      .ok ({ message := "If the account exists, password reset instructions have been sent",
             sent := true }, c9_db) ∧
    ("Password reset instructions sent successfully" ≠
      "If the account exists, password reset instructions have been sent") := by
  decide

/-- C9 amended: password-reset initiation always answers HTTP 200 with
`sent = true`, but the `message` string differs between the unknown-account
branch and the existing-account branch, so the response body does reveal
whether the identifier belongs to an account. -/
theorem forgot_password_response_amended (db : DB) (ident new_otp : String) :
    (db.users.find? (matches_email_or_phone ident) = none →
      auth_forgot_password db ident new_otp =
        .ok ({ message := "If the account exists, password reset instructions have been sent",
               sent := true }, db)) ∧
    (∀ u, db.users.find? (matches_email_or_phone ident) = some u →
      auth_forgot_password db ident new_otp =
        .ok ({ message := "Password reset instructions sent successfully", sent := true },
             db.set_user { u with otp := some new_otp })) ∧
    (∀ r db', auth_forgot_password db ident new_otp = .ok (r, db') → r.sent = true) := by
  refine ⟨?_, ?_, ?_⟩
  · intro h
    simp [auth_forgot_password, h]
  · intro u h
    simp [auth_forgot_password, h]
  · intro r db' h
    unfold auth_forgot_password at h
    rcases hfd : db.users.find? (matches_email_or_phone ident) with _ | u <;>
      rw [hfd] at h <;> injection h with h <;> injection h with h1 h2 <;> rw [← h1]

/-- C9 witness: the unknown-identifier branch answers 200 with the generic
message and an unchanged store. -/
theorem forgot_password_response_amended_witness :
    auth_forgot_password c9_db "ghost@example.com" "111222" =
      .ok ({ message := "If the account exists, password reset instructions have been sent",
             sent := true }, c9_db) := by
  have h := forgot_password_response_amended c9_db "ghost@example.com" "111222"
  exact h.1 (by decide)

end Wezzie
